import Mathlib

/-!
Shallow embedding of `src/main/flight/pid.c` (Cleanflight PID core).

Machine integers are modelled as `Int`/`Nat`; C truncating division is
`Int.tdiv`, C arithmetic right shift on signed values is floor division by a
power of two (`Int.fdiv`), unsigned shifts are `Nat` shifts, and the
`int16_t` store into `axisPID` is modelled by `wrap16`.  The float variant
(`pidLuxFloat`) is modelled with exact rational arithmetic `ℚ`.  `BLACKBOX`
diagnostics (`axisPID_P/I/D`) are modelled as enabled; `GTUNE` only observes
state and is omitted.
-/

namespace Cleanflight

/-- Axis indices: ROLL = 0, PITCH = 1, YAW = 2 (`common/axis.h`). -/
abbrev Axis := Fin 3

def ROLL : Axis := 0

def PITCH : Axis := 1

def YAW : Axis := 2

/-- Modelled from the spec: `constrain` (from `common/maths.c`, not under
`src/`) clamps an integer to `[lo, hi]`. -/
def constrain (amt lo hi : Int) : Int :=
  if amt < lo then lo else if amt > hi then hi else amt

/-- Modelled from the spec: `constrainf` (from `common/maths.c`, not under
`src/`) clamps a real value to `[lo, hi]`. -/
def constrainf (amt lo hi : ℚ) : ℚ :=
  if amt < lo then lo else if amt > hi then hi else amt

/-- C arithmetic right shift by `n` of a (possibly negative) signed value:
floor division by `2 ^ n`. -/
def sar (x : Int) (n : Nat) : Int := Int.fdiv x (2 ^ n)

/-- C float-to-int conversion: truncation toward zero. -/
def ctrunc (q : ℚ) : Int := if 0 ≤ q then ⌊q⌋ else ⌈q⌉

/-- C conversion of a 32-bit value to `int16_t` (two's complement wrap),
as in the store `axisPID[axis] = PTerm + ITerm + DTerm`. -/
def wrap16 (x : Int) : Int := (x + 2 ^ 15) % 2 ^ 16 - 2 ^ 15

/-- Modelled from the spec: `filterApplyPt1` (from `common/filter.c`, not
under `src/`) is a single-pole low-pass filter with explicit state; the new
state is the returned output.  `k` is the smoothing coefficient derived from
the cutoff frequency and the cycle duration `dT`. -/
def filterApplyPt1 (input state k : ℚ) : ℚ := state + k * (input - state)

/-- The fields of `pidProfile_t` read by this file: per-axis integer gains
`P8/I8/D8`, the `PIDLEVEL` entries of those arrays (`P8level` stands for
`P8[PIDLEVEL]` and so on), per-axis float gains `P_f/I_f/D_f`, the float
level-mode gains `A_level`/`H_level`, the horizon sensitivity and the two
filter cutoff settings. -/
structure PidProfile where
  P8 : Axis → Nat
  I8 : Axis → Nat
  D8 : Axis → Nat
  P8level : Nat
  I8level : Nat
  D8level : Nat
  P_f : Axis → ℚ
  I_f : Axis → ℚ
  D_f : Axis → ℚ
  A_level : ℚ
  H_level : ℚ
  H_sensitivity : Nat
  pterm_cut_hz : Nat
  dterm_cut_hz : Nat

/-- The ambient inputs a controller cycle reads: `rcCommand`, `gyroADC`,
`attitude.raw`, the flight-mode flags, `cycleTime`, `dT`, `gyro.scale`,
`PIDweight`, the two stick deflections returned by `getRcStickDeflection`
(external, from `io/rc_controls.c`), the per-axis `rates` of
`controlRateConfig_t`, and `max_angle_inclination`.  `kP`/`kD` are the PT1
smoothing coefficients corresponding to the configured cutoffs and `dT`. -/
structure Env where
  rcCommand : Axis → Int
  gyroADC : Axis → Int
  attitudeRaw : Axis → Int
  angleMode : Bool
  horizonMode : Bool
  cycleTime : Nat
  dT : ℚ
  gyroScale : ℚ
  PIDweight : Axis → Nat
  stickPosAil : Int
  stickPosEle : Int
  rates : Axis → Nat
  max_angle_inclination : Nat
  kP : ℚ
  kD : ℚ

/-- `pidControllerType_e`: the closed enumeration of controller variants. -/
inductive PidControllerType where
  | PID_CONTROLLER_MWREWRITE
  | PID_CONTROLLER_LUX_FLOAT
deriving DecidableEq

/-- All state owned by the PID core: the two integrator representations
(`errorGyroI`, `errorGyroIf`), the per-variant derivative histories
(`lastError`, `delta1`, `delta2`, kept as `static` locals in the source),
the PT1 filter states, the output array `axisPID`, the `BLACKBOX`
diagnostic arrays, and the active controller selection `pid_controller`. -/
structure PidState where
  errorGyroI : Axis → Int
  errorGyroIf : Axis → ℚ
  lastErrorMW : Axis → Int
  delta1MW : Axis → Int
  delta2MW : Axis → Int
  lastErrorLux : Axis → ℚ
  delta1Lux : Axis → ℚ
  delta2Lux : Axis → ℚ
  PTermState : Axis → ℚ
  DTermState : Axis → ℚ
  axisPID : Axis → Int
  axisPID_P : Axis → Int
  axisPID_I : Axis → Int
  axisPID_D : Axis → Int
  controller : PidControllerType

/-- Startup state: C zero-initialises every array; `pid_controller` starts
as `pidMultiWiiRewrite` (line 71). -/
def initState : PidState where
  errorGyroI := fun _ => 0
  errorGyroIf := fun _ => 0
  lastErrorMW := fun _ => 0
  delta1MW := fun _ => 0
  delta2MW := fun _ => 0
  lastErrorLux := fun _ => 0
  delta1Lux := fun _ => 0
  delta2Lux := fun _ => 0
  PTermState := fun _ => 0
  DTermState := fun _ => 0
  axisPID := fun _ => 0
  axisPID_P := fun _ => 0
  axisPID_I := fun _ => 0
  axisPID_D := fun _ => 0
  controller := PidControllerType.PID_CONTROLLER_MWREWRITE

/-- `pidMultiWiiRewrite` lines 220-242: the integer horizon level strength
(100 at centre stick).  Note `10 * D8[PIDLEVEL] / 80` and the outer `/ 100`
are C truncating integer divisions. -/
def mwHorizonStrength (profile : PidProfile) (env : Env) : Int :=
  if env.horizonMode then
    let mostDeflectedPos : Int :=
      if |env.stickPosAil| > |env.stickPosEle| then |env.stickPosAil| else |env.stickPosEle|
    let strength0 : Int := Int.tdiv (500 - mostDeflectedPos) 5
    constrain
      (Int.tdiv (10 * (strength0 - 100) * (Int.tdiv (10 * (profile.D8level : Int)) 80)) 100 + 100)
      0 100
  else 100

/-- `pidMultiWiiRewrite` lines 246-265: the desired angle rate
`AngleRateTmp` for one axis. -/
def mwAngleRate (profile : PidProfile) (env : Env) (hstr : Int) (axis : Axis) : Int :=
  let rate : Int := env.rates axis
  if axis = YAW then
    sar ((rate + 27) * env.rcCommand YAW) 5
  else
    let errorAngle : Int :=
      constrain (2 * env.rcCommand axis) (-(env.max_angle_inclination : Int))
          (env.max_angle_inclination : Int)
        - env.attitudeRaw axis
    if ¬env.angleMode then
      let base := sar ((rate + 27) * env.rcCommand axis) 4
      if env.horizonMode then
        base + sar (Int.tdiv (errorAngle * (profile.I8level : Int) * hstr) 100) 4
      else base
    else
      sar (errorAngle * (profile.P8level : Int)) 4

/-- `pidMultiWiiRewrite` line 271: `RateError = AngleRateTmp - gyroADC[axis] / 4`. -/
def mwRateError (profile : PidProfile) (env : Env) (hstr : Int) (axis : Axis) : Int :=
  mwAngleRate profile env hstr axis - Int.tdiv (env.gyroADC axis) 4

/-- The divisor `cycleTime >> 4` of the derivative time correction
(`pidMultiWiiRewrite` line 299); the source divides by it with no zero
guard. -/
def mwDtermDivisor (env : Env) : Nat := env.cycleTime >>> 4

/-- `pidMultiWiiRewrite` line 299: the unsigned factor
`(uint16_t)0xFFFF / (cycleTime >> 4)`. -/
def mwTimeCorr (env : Env) : Nat := 65535 / mwDtermDivisor env

/-- One axis of `pidMultiWiiRewrite` (lines 245-326).  `G` is the
`GYRO_I_MAX` constant from `flight/pid.h` (not under `src/`), kept as a
parameter. -/
def mwAxisStep (profile : PidProfile) (env : Env) (G : Nat) (hstr : Int) (axis : Axis)
    (s : PidState) : PidState :=
  let RateError := mwRateError profile env hstr axis
  let PTerm0 := sar (Int.tdiv (RateError * (profile.P8 axis : Int) * (env.PIDweight axis : Int)) 100) 7
  let pOut := filterApplyPt1 (PTerm0 : ℚ) (s.PTermState axis) env.kP
  let PTerm := if profile.pterm_cut_hz ≠ 0 then ctrunc pOut else PTerm0
  let PTermState' := if profile.pterm_cut_hz ≠ 0 then Function.update s.PTermState axis pOut
    else s.PTermState
  let egI := constrain
    (s.errorGyroI axis + sar (RateError * (env.cycleTime : Int)) 11 * (profile.I8 axis : Int))
    (-(G : Int) * 2 ^ 13) ((G : Int) * 2 ^ 13)
  let ITerm := sar egI 13
  let delta0 := RateError - s.lastErrorMW axis
  let delta := sar (delta0 * (mwTimeCorr env : Int)) 6
  let deltaSum0 := s.delta1MW axis + s.delta2MW axis + delta
  let dOut := filterApplyPt1 (deltaSum0 : ℚ) (s.DTermState axis) env.kD
  let deltaSum := if profile.dterm_cut_hz ≠ 0 then ctrunc dOut else deltaSum0
  let DTermState' := if profile.dterm_cut_hz ≠ 0 then Function.update s.DTermState axis dOut
    else s.DTermState
  let DTerm := sar (Int.tdiv (deltaSum * (profile.D8 axis : Int) * (env.PIDweight axis : Int)) 100) 8
  { s with
    errorGyroI := Function.update s.errorGyroI axis egI
    lastErrorMW := Function.update s.lastErrorMW axis RateError
    delta1MW := Function.update s.delta1MW axis delta
    delta2MW := Function.update s.delta2MW axis (s.delta1MW axis)
    PTermState := PTermState'
    DTermState := DTermState'
    axisPID := Function.update s.axisPID axis (wrap16 (PTerm + ITerm + DTerm))
    axisPID_P := Function.update s.axisPID_P axis PTerm
    axisPID_I := Function.update s.axisPID_I axis ITerm
    axisPID_D := Function.update s.axisPID_D axis DTerm }

/-- `pidMultiWiiRewrite`: horizon strength once, then the three axes in
order ROLL, PITCH, YAW. -/
def pidMultiWiiRewrite (profile : PidProfile) (env : Env) (G : Nat) (s : PidState) : PidState :=
  let hstr := mwHorizonStrength profile env
  mwAxisStep profile env G hstr 2 (mwAxisStep profile env G hstr 1 (mwAxisStep profile env G hstr 0 s))

/-- `pidLuxFloat` lines 98-120: the float horizon level strength (1 at
centre stick).  `100 / H_sensitivity` is a C integer division. -/
def luxHorizonStrength (profile : PidProfile) (env : Env) : ℚ :=
  if env.horizonMode then
    let mostDeflectedPos : Int :=
      if |env.stickPosAil| > |env.stickPosEle| then |env.stickPosAil| else |env.stickPosEle|
    let strength0 : ℚ := ((500 - mostDeflectedPos : Int) : ℚ) / 500
    if profile.H_sensitivity = 0 then 0
    else constrainf ((strength0 - 1) * ((100 / profile.H_sensitivity : Nat) : ℚ) + 1) 0 1
  else 1

/-- `pidLuxFloat` lines 125-146: the desired `AngleRate` for one axis. -/
def luxAngleRate (profile : PidProfile) (env : Env) (hstr : ℚ) (axis : Axis) : ℚ :=
  let rate : Int := env.rates axis
  if axis = YAW then
    (((rate + 10) * env.rcCommand YAW : Int) : ℚ) / 50
  else
    let errorAngle : ℚ :=
      ((constrain (env.rcCommand axis) (-(env.max_angle_inclination : Int))
            (env.max_angle_inclination : Int)
          - env.attitudeRaw axis : Int) : ℚ) / 10
    if env.angleMode then
      errorAngle * profile.A_level
    else
      let ar : ℚ := (((rate + 20) * env.rcCommand axis : Int) : ℚ) / 50
      if env.horizonMode then ar + errorAngle * profile.H_level * hstr else ar

/-- `pidLuxFloat` lines 148-154: `RateError = AngleRate - gyroADC[axis] * gyro.scale`. -/
def luxRateError (profile : PidProfile) (env : Env) (hstr : ℚ) (axis : Axis) : ℚ :=
  luxAngleRate profile env hstr axis - (env.gyroADC axis : ℚ) * env.gyroScale

/-- The divisor `dT` of the float derivative time correction (`pidLuxFloat`
line 177); the source divides by it with no zero guard. -/
def luxDtermDivisor (env : Env) : ℚ := env.dT

/-- One axis of `pidLuxFloat` (lines 123-204). -/
def luxAxisStep (profile : PidProfile) (env : Env) (hstr : ℚ) (axis : Axis)
    (s : PidState) : PidState :=
  let RateError := luxRateError profile env hstr axis
  let PTerm0 := RateError * profile.P_f axis * (env.PIDweight axis : ℚ) / 100
  let pOut := filterApplyPt1 PTerm0 (s.PTermState axis) env.kP
  let PTerm := if profile.pterm_cut_hz ≠ 0 then pOut else PTerm0
  let PTermState' := if profile.pterm_cut_hz ≠ 0 then Function.update s.PTermState axis pOut
    else s.PTermState
  let egIf := constrainf (s.errorGyroIf axis + RateError * env.dT * profile.I_f axis * 10)
    (-250) 250
  let ITerm := egIf
  let delta0 := RateError - s.lastErrorLux axis
  let delta := delta0 * (1 / luxDtermDivisor env)
  let deltaSum0 := s.delta1Lux axis + s.delta2Lux axis + delta
  let dOut := filterApplyPt1 deltaSum0 (s.DTermState axis) env.kD
  let deltaSum := if profile.dterm_cut_hz ≠ 0 then dOut else deltaSum0
  let DTermState' := if profile.dterm_cut_hz ≠ 0 then Function.update s.DTermState axis dOut
    else s.DTermState
  let DTerm := constrainf (deltaSum / 3 * profile.D_f axis * (env.PIDweight axis : ℚ) / 100)
    (-300) 300
  { s with
    errorGyroIf := Function.update s.errorGyroIf axis egIf
    lastErrorLux := Function.update s.lastErrorLux axis RateError
    delta1Lux := Function.update s.delta1Lux axis delta
    delta2Lux := Function.update s.delta2Lux axis (s.delta1Lux axis)
    PTermState := PTermState'
    DTermState := DTermState'
    axisPID := Function.update s.axisPID axis (constrain (round (PTerm + ITerm + DTerm)) (-1000) 1000)
    axisPID_P := Function.update s.axisPID_P axis (ctrunc PTerm)
    axisPID_I := Function.update s.axisPID_I axis (ctrunc ITerm)
    axisPID_D := Function.update s.axisPID_D axis (ctrunc DTerm) }

/-- `pidLuxFloat`: horizon strength once, then the three axes in order. -/
def pidLuxFloat (profile : PidProfile) (env : Env) (s : PidState) : PidState :=
  let hstr := luxHorizonStrength profile env
  luxAxisStep profile env hstr 2 (luxAxisStep profile env hstr 1 (luxAxisStep profile env hstr 0 s))

/-- `pidResetErrorGyro` lines 73-82: zero both integrator arrays. -/
def pidResetErrorGyro (s : PidState) : PidState :=
  { s with
    errorGyroI := fun _ => 0
    errorGyroIf := fun _ => 0 }

/-- `pidSetController` lines 329-340: select the active controller. -/
def pidSetController (t : PidControllerType) (s : PidState) : PidState :=
  { s with controller := t }

/-- An externally triggered operation on the PID core. -/
inductive PidOp where
  | invoke (profile : PidProfile) (env : Env)
  | reset
  | select (t : PidControllerType)

/-- Apply one operation; an `invoke` dispatches through the
`pid_controller` selection as the scheduler does. -/
def applyOp (G : Nat) (s : PidState) : PidOp → PidState
  | PidOp.invoke profile env =>
    match s.controller with
    | PidControllerType.PID_CONTROLLER_MWREWRITE => pidMultiWiiRewrite profile env G s
    | PidControllerType.PID_CONTROLLER_LUX_FLOAT => pidLuxFloat profile env s
  | PidOp.reset => pidResetErrorGyro s
  | PidOp.select t => pidSetController t s

/-- Run a sequence of operations from a state. -/
def runOps (G : Nat) (s : PidState) (ops : List PidOp) : PidState :=
  ops.foldl (applyOp G) s

/-- The integer D term as the spec describes it (for comparison with the
source): the 3-sample moving sum divided by 3 before the D gain and weight
scaling. -/
def mwDTermClaimed (profile : PidProfile) (env : Env) (hstr : Int) (axis : Axis)
    (s : PidState) : Int :=
  let RateError := mwRateError profile env hstr axis
  let delta := sar ((RateError - s.lastErrorMW axis) * (mwTimeCorr env : Int)) 6
  let deltaSum := s.delta1MW axis + s.delta2MW axis + delta
  sar (Int.tdiv (Int.tdiv deltaSum 3 * (profile.D8 axis : Int) * (env.PIDweight axis : Int)) 100) 8

/-- The float D term as the claim describes it (for comparison with the
source): the averaged delta sum clamped to `[-300, 300]` before the D gain
and weight scaling are applied. -/
def luxDTermClaimed (profile : PidProfile) (env : Env) (hstr : ℚ) (axis : Axis)
    (s : PidState) : ℚ :=
  let RateError := luxRateError profile env hstr axis
  let delta := (RateError - s.lastErrorLux axis) * (1 / luxDtermDivisor env)
  let deltaSum := s.delta1Lux axis + s.delta2Lux axis + delta
  constrainf (deltaSum / 3) (-300) 300 * profile.D_f axis * (env.PIDweight axis : ℚ) / 100

/-- An all-zero gain profile, base point for the concrete test inputs. -/
def zeroProfile : PidProfile where
  P8 := fun _ => 0
  I8 := fun _ => 0
  D8 := fun _ => 0
  P8level := 0
  I8level := 0
  D8level := 0
  P_f := fun _ => 0
  I_f := fun _ => 0
  D_f := fun _ => 0
  A_level := 0
  H_level := 0
  H_sensitivity := 0
  pterm_cut_hz := 0
  dterm_cut_hz := 0

/-- A quiet environment: sticks centred, gyro still, both modes off,
`cycleTime` 2048, `dT` 1, weights at 100 %. -/
def zeroEnv : Env where
  rcCommand := fun _ => 0
  gyroADC := fun _ => 0
  attitudeRaw := fun _ => 0
  angleMode := false
  horizonMode := false
  cycleTime := 2048
  dT := 1
  gyroScale := 1
  PIDweight := fun _ => 100
  stickPosAil := 0
  stickPosEle := 0
  rates := fun _ => 0
  max_angle_inclination := 500
  kP := 0
  kD := 0

/-- Full right yaw stick at rate setting 100 with yaw P gain 200: drives the
integer controller sum far above 1000. -/
def cexProfile1 : PidProfile := { zeroProfile with P8 := fun _ => 200 }

/-- Environment for the output-range counterexample. -/
def cexEnv1 : Env :=
  { zeroEnv with rcCommand := fun a => if a = YAW then 500 else 0, rates := fun _ => 100 }

/-- Horizon mode active with centred sticks (for the horizon-strength
counterexample: integer-variant sensitivity `D8[PIDLEVEL]` is 0 in
`zeroProfile`). -/
def cexEnv3 : Env := { zeroEnv with horizonMode := true }

/-- Yaw D gain 100 (all other gains zero) for the integer D-term
counterexample. -/
def cexProfile4 : PidProfile := { zeroProfile with D8 := fun _ => 100 }

/-- Small yaw stick input producing a first-cycle delta sum of 255. -/
def cexEnv4 : Env :=
  { zeroEnv with rcCommand := fun a => if a = YAW then 32 else 0, rates := fun _ => 5 }

/-- Yaw float D gain 2 for the float D-term clamp counterexample. -/
def cexProfile5 : PidProfile := { zeroProfile with D_f := fun _ => 2 }

/-- Full yaw stick at rate 110 with `dT = 1`: first-cycle delta sum 1200. -/
def cexEnv5 : Env :=
  { zeroEnv with rcCommand := fun a => if a = YAW then 500 else 0, rates := fun _ => 110 }

/-- A degenerate cycle time below 16, for which `cycleTime >> 4` is zero. -/
def cexEnv10 : Env := { zeroEnv with cycleTime := 8 }

/-- Horizon mode with full aileron deflection (magnitude 500). -/
def cexEnv3b : Env := { cexEnv3 with stickPosAil := 500 }

/-- Horizon sensitivity 55 (a nonzero value below 100). -/
def cexProfile3a : PidProfile := { zeroProfile with H_sensitivity := 55 }

/-- Horizon sensitivity 100 (the largest value whose strength curve reaches
zero in the float variant). -/
def cexProfile3b : PidProfile := { zeroProfile with H_sensitivity := 100 }

/-- Horizon sensitivity 101, for which `100 / H_sensitivity` truncates to 0. -/
def cexProfile3c : PidProfile := { zeroProfile with H_sensitivity := 101 }

/-- Integer-variant horizon sensitivity (`D8[PIDLEVEL]`) 80, the smallest
setting whose integer strength curve reaches zero at full deflection. -/
def cexProfile3d : PidProfile := { zeroProfile with D8level := 80 }

/-- The integer integrator windup invariant: every axis accumulator stays
within `±(GYRO_I_MAX << 13)`. -/
def windupOkI (G : Nat) (s : PidState) : Prop :=
  ∀ a, -(G : Int) * 2 ^ 13 ≤ s.errorGyroI a ∧ s.errorGyroI a ≤ (G : Int) * 2 ^ 13

/-- The float integrator windup invariant: every axis accumulator stays
within `±250`. -/
def windupOkF (s : PidState) : Prop :=
  ∀ a, -250 ≤ s.errorGyroIf a ∧ s.errorGyroIf a ≤ 250

lemma constrain_mem {x lo hi : Int} (h : lo ≤ hi) :
    lo ≤ constrain x lo hi ∧ constrain x lo hi ≤ hi := by
  unfold constrain
  split_ifs <;> omega

lemma constrainf_mem {x lo hi : ℚ} (h : lo ≤ hi) :
    lo ≤ constrainf x lo hi ∧ constrainf x lo hi ≤ hi := by
  unfold constrainf
  split_ifs <;> constructor <;> linarith

lemma constrain_of_nonpos_nonneg {lo hi : Int} (hlo : lo ≤ 0) (hhi : 0 ≤ hi) :
    constrain 0 lo hi = 0 := by
  unfold constrain
  split_ifs <;> omega

lemma constrainf_of_nonpos_nonneg {lo hi : ℚ} (hlo : lo ≤ 0) (hhi : 0 ≤ hi) :
    constrainf 0 lo hi = 0 := by
  unfold constrainf
  split_ifs with h1 h2 <;> [linarith; linarith; rfl]

lemma gbound (G : Nat) : -(G : Int) * 2 ^ 13 ≤ (G : Int) * 2 ^ 13 := by
  have h : (0 : Int) ≤ (G : Int) * 2 ^ 13 := by positivity
  linarith

lemma mwAxisStep_errorGyroI (p : PidProfile) (e : Env) (G : Nat) (h : Int) (b : Axis)
    (s : PidState) (a : Axis) :
    (mwAxisStep p e G h b s).errorGyroI a =
      if a = b then
        constrain
          (s.errorGyroI b + sar (mwRateError p e h b * (e.cycleTime : Int)) 11 * (p.I8 b : Int))
          (-(G : Int) * 2 ^ 13) ((G : Int) * 2 ^ 13)
      else s.errorGyroI a := by
  by_cases hab : a = b
  · subst hab
    simp [mwAxisStep]
  · simp [mwAxisStep, Function.update_noteq hab, hab]

lemma mwAxisStep_errorGyroIf (p : PidProfile) (e : Env) (G : Nat) (h : Int) (b : Axis)
    (s : PidState) :
    (mwAxisStep p e G h b s).errorGyroIf = s.errorGyroIf := rfl

lemma mwAxisStep_axisPID_I_self (p : PidProfile) (e : Env) (G : Nat) (h : Int) (b : Axis)
    (s : PidState) :
    (mwAxisStep p e G h b s).axisPID_I b = sar ((mwAxisStep p e G h b s).errorGyroI b) 13 := by
  simp [mwAxisStep]

lemma luxAxisStep_errorGyroIf (p : PidProfile) (e : Env) (q : ℚ) (b : Axis)
    (s : PidState) (a : Axis) :
    (luxAxisStep p e q b s).errorGyroIf a =
      if a = b then
        constrainf (s.errorGyroIf b + luxRateError p e q b * e.dT * p.I_f b * 10) (-250) 250
      else s.errorGyroIf a := by
  by_cases hab : a = b
  · subst hab
    simp [luxAxisStep]
  · simp [luxAxisStep, Function.update_noteq hab, hab]

lemma luxAxisStep_errorGyroI (p : PidProfile) (e : Env) (q : ℚ) (b : Axis) (s : PidState) :
    (luxAxisStep p e q b s).errorGyroI = s.errorGyroI := rfl

lemma luxAxisStep_axisPID_I_self (p : PidProfile) (e : Env) (q : ℚ) (b : Axis) (s : PidState) :
    (luxAxisStep p e q b s).axisPID_I b = ctrunc ((luxAxisStep p e q b s).errorGyroIf b) := by
  simp [luxAxisStep]

lemma mwAxisStep_windupOkI {G : Nat} {s : PidState} (p : PidProfile) (e : Env) (h : Int)
    (b : Axis) (hs : windupOkI G s) : windupOkI G (mwAxisStep p e G h b s) := by
  intro a
  rw [mwAxisStep_errorGyroI]
  split_ifs with hab
  · exact constrain_mem (gbound G)
  · exact hs a

lemma luxAxisStep_windupOkF {s : PidState} (p : PidProfile) (e : Env) (q : ℚ)
    (b : Axis) (hs : windupOkF s) : windupOkF (luxAxisStep p e q b s) := by
  intro a
  rw [luxAxisStep_errorGyroIf]
  split_ifs with hab
  · exact constrainf_mem (by norm_num)
  · exact hs a

lemma applyOp_windup {G : Nat} {s : PidState} (op : PidOp)
    (hI : windupOkI G s) (hF : windupOkF s) :
    windupOkI G (applyOp G s op) ∧ windupOkF (applyOp G s op) := by
  cases op with
  | invoke p e =>
    cases hc : s.controller with
    | PID_CONTROLLER_MWREWRITE =>
      simp only [applyOp, hc]
      constructor
      · exact mwAxisStep_windupOkI p e _ _ (mwAxisStep_windupOkI p e _ _ (mwAxisStep_windupOkI p e _ _ hI))
      · intro a
        rw [pidMultiWiiRewrite]
        rw [mwAxisStep_errorGyroIf, mwAxisStep_errorGyroIf, mwAxisStep_errorGyroIf]
        exact hF a
    | PID_CONTROLLER_LUX_FLOAT =>
      simp only [applyOp, hc]
      constructor
      · intro a
        rw [pidLuxFloat]
        rw [luxAxisStep_errorGyroI, luxAxisStep_errorGyroI, luxAxisStep_errorGyroI]
        exact hI a
      · exact luxAxisStep_windupOkF p e _ _ (luxAxisStep_windupOkF p e _ _ (luxAxisStep_windupOkF p e _ _ hF))
  | reset =>
    constructor
    · intro a
      have h : (0 : Int) ≤ (G : Int) * 2 ^ 13 := by positivity
      constructor
      · show -(G : Int) * 2 ^ 13 ≤ (0 : Int)
        linarith
      · show (0 : Int) ≤ (G : Int) * 2 ^ 13
        exact h
    · intro a
      constructor
      · show (-250 : ℚ) ≤ 0
        norm_num
      · show (0 : ℚ) ≤ 250
        norm_num
  | select t =>
    exact ⟨fun a => hI a, fun a => hF a⟩

lemma runOps_windup {G : Nat} {s : PidState} (ops : List PidOp)
    (hI : windupOkI G s) (hF : windupOkF s) :
    windupOkI G (runOps G s ops) ∧ windupOkF (runOps G s ops) := by
  induction ops generalizing s with
  | nil => exact ⟨hI, hF⟩
  | cons op ops ih =>
    have h := applyOp_windup op hI hF
    exact ih h.1 h.2

lemma initState_windup (G : Nat) : windupOkI G initState ∧ windupOkF initState := by
  constructor
  · intro a
    constructor
    · have h : (0 : Int) ≤ (G : Int) * 2 ^ 13 := by positivity
      show -(G : Int) * 2 ^ 13 ≤ 0
      linarith
    · show (0 : Int) ≤ (G : Int) * 2 ^ 13
      positivity
  · intro a
    exact ⟨by norm_num [initState], by norm_num [initState]⟩

/-- Claim C7: the reset operation touches only the two integrator arrays —
derivative history (`lastError`, `delta1`, `delta2` of both variants) and
the P/D low-pass filter states are unchanged by `pidResetErrorGyro`. -/
theorem C7_theorem (s : PidState) :
    (pidResetErrorGyro s).lastErrorMW = s.lastErrorMW ∧
    (pidResetErrorGyro s).delta1MW = s.delta1MW ∧
    (pidResetErrorGyro s).delta2MW = s.delta2MW ∧
    (pidResetErrorGyro s).lastErrorLux = s.lastErrorLux ∧
    (pidResetErrorGyro s).delta1Lux = s.delta1Lux ∧
    (pidResetErrorGyro s).delta2Lux = s.delta2Lux ∧
    (pidResetErrorGyro s).PTermState = s.PTermState ∧
    (pidResetErrorGyro s).DTermState = s.DTermState :=
  ⟨rfl, rfl, rfl, rfl, rfl, rfl, rfl, rfl⟩

/-- Claim C8: the yaw desired rate of both variants is computed only from
the stick command and the yaw rate setting: changing the angle-hold mode
flag and the attitude estimate (and even the horizon strength) leaves it
unchanged. -/
theorem C8_theorem (p : PidProfile) (e : Env) (b : Bool) (att : Axis → Int)
    (h1 h2 : Int) (q1 q2 : ℚ) :
    mwAngleRate p { e with angleMode := b, attitudeRaw := att } h1 YAW
      = mwAngleRate p e h2 YAW ∧
    luxAngleRate p { e with angleMode := b, attitudeRaw := att } q1 YAW
      = luxAngleRate p e q2 YAW :=
  ⟨rfl, rfl⟩

/-- Claim C9: `pidSetController` mutates only the controller selection —
integrators, derivative history and filter states all carry over. -/
theorem C9_theorem (t : PidControllerType) (s : PidState) :
    (pidSetController t s).errorGyroI = s.errorGyroI ∧
    (pidSetController t s).errorGyroIf = s.errorGyroIf ∧
    (pidSetController t s).lastErrorMW = s.lastErrorMW ∧
    (pidSetController t s).delta1MW = s.delta1MW ∧
    (pidSetController t s).delta2MW = s.delta2MW ∧
    (pidSetController t s).lastErrorLux = s.lastErrorLux ∧
    (pidSetController t s).delta1Lux = s.delta1Lux ∧
    (pidSetController t s).delta2Lux = s.delta2Lux ∧
    (pidSetController t s).PTermState = s.PTermState ∧
    (pidSetController t s).DTermState = s.DTermState ∧
    (pidSetController t s).axisPID = s.axisPID ∧
    (pidSetController t s).controller = t :=
  ⟨rfl, rfl, rfl, rfl, rfl, rfl, rfl, rfl, rfl, rfl, rfl, rfl⟩

/-- Claim C2: under every sequence of controller invocations, resets and
variant switches from startup, the integer integrator stays within
`±(GYRO_I_MAX << 13)` (for every value `G` of the `GYRO_I_MAX` constant)
and the float integrator stays within `±250`; moreover, within a cycle,
each variant clamps the accumulator immediately after accumulation and
consumes exactly the clamped value as the I term. -/
theorem C2_theorem (G : Nat) (ops : List PidOp) :
    (∀ a, -(G : Int) * 2 ^ 13 ≤ (runOps G initState ops).errorGyroI a ∧
        (runOps G initState ops).errorGyroI a ≤ (G : Int) * 2 ^ 13) ∧
    (∀ a, (-250 : ℚ) ≤ (runOps G initState ops).errorGyroIf a ∧
        (runOps G initState ops).errorGyroIf a ≤ 250) ∧
    (∀ (p : PidProfile) (e : Env) (h : Int) (b : Axis) (s : PidState),
        (mwAxisStep p e G h b s).errorGyroI b =
            constrain
              (s.errorGyroI b + sar (mwRateError p e h b * (e.cycleTime : Int)) 11 * (p.I8 b : Int))
              (-(G : Int) * 2 ^ 13) ((G : Int) * 2 ^ 13) ∧
          (mwAxisStep p e G h b s).axisPID_I b = sar ((mwAxisStep p e G h b s).errorGyroI b) 13) ∧
    (∀ (p : PidProfile) (e : Env) (q : ℚ) (b : Axis) (s : PidState),
        (luxAxisStep p e q b s).errorGyroIf b =
            constrainf (s.errorGyroIf b + luxRateError p e q b * e.dT * p.I_f b * 10) (-250) 250 ∧
          (luxAxisStep p e q b s).axisPID_I b = ctrunc ((luxAxisStep p e q b s).errorGyroIf b)) := by
  obtain ⟨hI, hF⟩ := runOps_windup (G := G) ops (initState_windup G).1 (initState_windup G).2
  refine ⟨hI, hF, fun p e h b s => ⟨?_, mwAxisStep_axisPID_I_self p e G h b s⟩,
    fun p e q b s => ⟨?_, luxAxisStep_axisPID_I_self p e q b s⟩⟩
  · rw [mwAxisStep_errorGyroI, if_pos rfl]
  · rw [luxAxisStep_errorGyroIf, if_pos rfl]

/-- Claim C6: `pidResetErrorGyro` zeroes both integrator representations on
every axis and is idempotent, and a subsequent cycle with zero rate error
on an axis leaves that axis's accumulator and I-term contribution at
zero, in both variants. -/
theorem C6_theorem :
    (∀ (s : PidState) (a : Axis),
        (pidResetErrorGyro s).errorGyroI a = 0 ∧ (pidResetErrorGyro s).errorGyroIf a = 0) ∧
    (∀ s : PidState, pidResetErrorGyro (pidResetErrorGyro s) = pidResetErrorGyro s) ∧
    (∀ (p : PidProfile) (e : Env) (G : Nat) (h : Int) (b : Axis) (s : PidState),
        mwRateError p e h b = 0 → s.errorGyroI b = 0 →
          (mwAxisStep p e G h b s).errorGyroI b = 0 ∧ (mwAxisStep p e G h b s).axisPID_I b = 0) ∧
    (∀ (p : PidProfile) (e : Env) (q : ℚ) (b : Axis) (s : PidState),
        luxRateError p e q b = 0 → s.errorGyroIf b = 0 →
          (luxAxisStep p e q b s).errorGyroIf b = 0 ∧ (luxAxisStep p e q b s).axisPID_I b = 0) := by
  refine ⟨fun s a => ⟨rfl, rfl⟩, fun s => rfl, ?_, ?_⟩
  · intro p e G h b s hre hzero
    have hacc : (mwAxisStep p e G h b s).errorGyroI b = 0 := by
      rw [mwAxisStep_errorGyroI, if_pos rfl, hre, hzero]
      have h13 : sar (0 * (e.cycleTime : Int)) 11 * (p.I8 b : Int) = 0 := by
        rw [zero_mul]
        show Int.fdiv 0 (2 ^ 11) * (p.I8 b : Int) = 0
        rw [Int.zero_fdiv, zero_mul]
      rw [h13]
      have hG : (0 : Int) ≤ (G : Int) * 2 ^ 13 := by positivity
      exact constrain_of_nonpos_nonneg (by linarith) hG
    refine ⟨hacc, ?_⟩
    rw [mwAxisStep_axisPID_I_self, hacc]
    show Int.fdiv 0 (2 ^ 13) = 0
    exact Int.zero_fdiv _
  · intro p e q b s hre hzero
    have hacc : (luxAxisStep p e q b s).errorGyroIf b = 0 := by
      rw [luxAxisStep_errorGyroIf, if_pos rfl, hre, hzero]
      rw [zero_mul, zero_mul, zero_mul, add_zero]
      exact constrainf_of_nonpos_nonneg (by norm_num) (by norm_num)
    refine ⟨hacc, ?_⟩
    rw [luxAxisStep_axisPID_I_self, hacc]
    show ctrunc 0 = 0
    norm_num [ctrunc]

/-- Witness for C6 at the all-zero profile, quiet environment, yaw axis,
startup state. -/
theorem C6_witness :
    (mwAxisStep zeroProfile zeroEnv 256 100 YAW initState).errorGyroI YAW = 0 ∧
    (mwAxisStep zeroProfile zeroEnv 256 100 YAW initState).axisPID_I YAW = 0 ∧
    (luxAxisStep zeroProfile zeroEnv 1 YAW initState).errorGyroIf YAW = 0 ∧
    (luxAxisStep zeroProfile zeroEnv 1 YAW initState).axisPID_I YAW = 0 := by
  have hmw := C6_theorem.2.2.1 zeroProfile zeroEnv 256 100 YAW initState (by decide) rfl
  have hlux := C6_theorem.2.2.2 zeroProfile zeroEnv 1 YAW initState
    (by simp [luxRateError, luxAngleRate, zeroProfile, zeroEnv, YAW]) rfl
  exact ⟨hmw.1, hmw.2, hlux.1, hlux.2⟩

/-- Claim C10: both variants divide by a cycle-time-derived quantity with no
zero guard; the divisor is nonzero exactly under the stated preconditions
(`cycleTime ≥ 16` integer variant, `dT > 0` float variant), and for
`cycleTime < 16` the integer variant's divisor is zero. -/
theorem C10_theorem (e : Env) :
    (16 ≤ e.cycleTime → mwDtermDivisor e ≠ 0) ∧
    (e.cycleTime < 16 → mwDtermDivisor e = 0) ∧
    (0 < e.dT → luxDtermDivisor e ≠ 0) := by
  refine ⟨fun h => ?_, fun h => ?_, fun h => ne_of_gt h⟩
  · have : e.cycleTime >>> 4 = e.cycleTime / 16 := Nat.shiftRight_eq_div_pow e.cycleTime 4
    unfold mwDtermDivisor
    rw [this]
    omega
  · have : e.cycleTime >>> 4 = e.cycleTime / 16 := Nat.shiftRight_eq_div_pow e.cycleTime 4
    unfold mwDtermDivisor
    rw [this]
    omega

/-- Witness for C10 at the concrete cycle times 2048 and 8 and `dT = 1`. -/
theorem C10_witness :
    mwDtermDivisor zeroEnv ≠ 0 ∧ mwDtermDivisor cexEnv10 = 0 ∧ luxDtermDivisor zeroEnv ≠ 0 :=
  ⟨(C10_theorem zeroEnv).1 (by decide),
   (C10_theorem cexEnv10).2.1 (by decide),
   (C10_theorem zeroEnv).2.2 zero_lt_one⟩

lemma luxAxisStep_axisPID_self_mem (p : PidProfile) (e : Env) (q : ℚ) (b : Axis)
    (s : PidState) :
    -1000 ≤ (luxAxisStep p e q b s).axisPID b ∧ (luxAxisStep p e q b s).axisPID b ≤ 1000 := by
  unfold luxAxisStep
  simp only [Function.update_same]
  exact constrain_mem (by omega)

lemma luxAxisStep_axisPID_other (p : PidProfile) (e : Env) (q : ℚ) (b : Axis)
    (s : PidState) {a : Axis} (hab : a ≠ b) :
    (luxAxisStep p e q b s).axisPID a = s.axisPID a := by
  simp [luxAxisStep, Function.update_noteq hab]

lemma mwAxisStep_axisPID_sum (p : PidProfile) (e : Env) (G : Nat) (h : Int) (b : Axis)
    (s : PidState) :
    (mwAxisStep p e G h b s).axisPID b =
      wrap16 ((mwAxisStep p e G h b s).axisPID_P b + (mwAxisStep p e G h b s).axisPID_I b +
        (mwAxisStep p e G h b s).axisPID_D b) := by
  simp [mwAxisStep]

lemma pidLuxFloat_axisPID_mem (p : PidProfile) (e : Env) (s : PidState) (a : Axis) :
    -1000 ≤ (pidLuxFloat p e s).axisPID a ∧ (pidLuxFloat p e s).axisPID a ≤ 1000 := by
  simp only [pidLuxFloat]
  by_cases h2 : a = 2
  · subst h2
    exact luxAxisStep_axisPID_self_mem p e _ 2 _
  · rw [luxAxisStep_axisPID_other p e _ 2 _ h2]
    by_cases h1 : a = 1
    · subst h1
      exact luxAxisStep_axisPID_self_mem p e _ 1 _
    · rw [luxAxisStep_axisPID_other p e _ 1 _ h1]
      by_cases h0 : a = 0
      · subst h0
        exact luxAxisStep_axisPID_self_mem p e _ 0 _
      · exfalso
        fin_cases a
        · exact h0 rfl
        · exact h1 rfl
        · exact h2 rfl

/-- Claim C1 (amended): only the float variant bounds its per-axis output —
it rounds the real-valued P+I+D sum to the nearest integer and clamps it to
`[-1000, 1000]`; the integer variant stores the raw unclamped P+I+D sum
(subject only to the `int16_t` conversion) and its output can leave that
range, e.g. reaching 3100. -/
theorem C1_theorem :
    (∀ (p : PidProfile) (e : Env) (s : PidState) (a : Axis),
        -1000 ≤ (pidLuxFloat p e s).axisPID a ∧ (pidLuxFloat p e s).axisPID a ≤ 1000) ∧
    (∀ (p : PidProfile) (e : Env) (G : Nat) (h : Int) (b : Axis) (s : PidState),
        (mwAxisStep p e G h b s).axisPID b =
          wrap16 ((mwAxisStep p e G h b s).axisPID_P b + (mwAxisStep p e G h b s).axisPID_I b +
            (mwAxisStep p e G h b s).axisPID_D b)) ∧
    (pidMultiWiiRewrite cexProfile1 cexEnv1 256 initState).axisPID YAW = 3100 :=
  ⟨pidLuxFloat_axisPID_mem, mwAxisStep_axisPID_sum, by decide⟩

/-- Claim C1 counterexample: the integer variant does not clamp its output;
with full yaw stick, rate 100 and yaw P gain 200 the first cycle writes
`axisPID[YAW] = 3100`, outside `[-1000, 1000]`. -/
theorem C1_counterexample :
    1000 < (pidMultiWiiRewrite cexProfile1 cexEnv1 256 initState).axisPID YAW := by
  decide

lemma constrain_eq_left {x lo hi : Int} (hx : x ≤ lo) (h : lo ≤ hi) :
    constrain x lo hi = lo := by
  unfold constrain
  split_ifs <;> omega

lemma constrainf_eq_left {x lo hi : ℚ} (hx : x ≤ lo) (h : lo ≤ hi) :
    constrainf x lo hi = lo := by
  unfold constrainf
  split_ifs with h1 h2
  · rfl
  · linarith
  · linarith

lemma ctrunc_mem {n m : Int} {x : ℚ} (h1 : (n : ℚ) ≤ x) (h2 : x ≤ (m : ℚ)) :
    n ≤ ctrunc x ∧ ctrunc x ≤ m := by
  unfold ctrunc
  split_ifs with h
  · refine ⟨Int.le_floor.mpr h1, ?_⟩
    have := Int.floor_le_floor h2
    simpa using this
  · refine ⟨?_, Int.ceil_le.mpr h2⟩
    have := Int.ceil_le_ceil h1
    simpa using this

/-- Claim C3 counterexample: in the integer variant a zero sensitivity
setting (`D8[PIDLEVEL] = 0`) does not force the horizon strength to zero —
at centre stick the strength is its maximum, 100. -/
theorem C3_counterexample : mwHorizonStrength zeroProfile cexEnv3 ≠ 0 := by
  decide

/-- Claim C3 (amended): in horizon mode, at centre stick the strength is
maximal (float: 1 for every nonzero sensitivity; integer: 100 for every
sensitivity, including zero).  Zero sensitivity forces zero strength only
in the float variant.  At full deflection (magnitude 500) the float
strength is zero exactly for sensitivities 1..100 — for larger settings
the integer division `100 / sensitivity` truncates to 0 and the strength
stays 1 — and the integer strength is zero for sensitivities of at least
80. -/
theorem C3_theorem (p : PidProfile) (e : Env) (hm : e.horizonMode = true) :
    (e.stickPosAil = 0 → e.stickPosEle = 0 →
      (p.H_sensitivity ≠ 0 → luxHorizonStrength p e = 1) ∧ mwHorizonStrength p e = 100) ∧
    (p.H_sensitivity = 0 → luxHorizonStrength p e = 0) ∧
    (e.stickPosAil = 500 → e.stickPosEle = 0 →
      (1 ≤ p.H_sensitivity → p.H_sensitivity ≤ 100 → luxHorizonStrength p e = 0) ∧
      (100 < p.H_sensitivity → luxHorizonStrength p e = 1) ∧
      (80 ≤ p.D8level → mwHorizonStrength p e = 0)) := by
  refine ⟨fun ha hb => ⟨fun hsens => ?_, ?_⟩, fun hsens => ?_, fun ha hb => ⟨fun h1 h100 => ?_, fun h100 => ?_, fun h80 => ?_⟩⟩
  · simp only [luxHorizonStrength, hm, ha, hb, hsens, if_true, if_false]
    norm_num [constrainf]
  · simp only [mwHorizonStrength, hm, ha, hb, if_true]
    norm_num
    rw [show Int.tdiv 500 5 = 100 from by decide]
    norm_num [Int.zero_tdiv, constrain]
  · simp only [luxHorizonStrength, hm, hsens, if_true]
  · have hne : p.H_sensitivity ≠ 0 := by omega
    simp only [luxHorizonStrength, hm, ha, hb, hne, if_true, if_false]
    norm_num
    have hk : 1 ≤ (100 / p.H_sensitivity : Nat) := (Nat.one_le_div_iff (by omega)).mpr h100
    have hk' : (1 : ℚ) ≤ ((100 / p.H_sensitivity : Nat) : ℚ) := by exact_mod_cast hk
    apply constrainf_eq_left _ (by norm_num)
    nlinarith [hk']
  · have hne : p.H_sensitivity ≠ 0 := by omega
    have hdiv : (100 / p.H_sensitivity : Nat) = 0 := Nat.div_eq_of_lt h100
    simp only [luxHorizonStrength, hm, ha, hb, hne, hdiv, if_true, if_false]
    norm_num [constrainf]
  · simp only [mwHorizonStrength, hm, ha, hb, if_true]
    have hk : 10 ≤ Int.tdiv (10 * (p.D8level : Int)) 80 := by
      have h0 : (0 : Int) ≤ 10 * (p.D8level : Int) := by positivity
      rw [Int.tdiv_eq_ediv h0 (by norm_num)]
      rw [Int.le_ediv_iff_mul_le (by norm_num)]
      have : (80 : Int) ≤ (p.D8level : Int) := by exact_mod_cast h80
      linarith
    norm_num
    generalize hK : Int.tdiv (10 * (p.D8level : Int)) 80 = K at hk ⊢
    have hcancel : Int.tdiv ((1000 : Int) * K) 100 = 10 * K := by
      rw [show (1000 : Int) * K = 100 * (10 * K) from by ring]
      exact Int.mul_tdiv_cancel_left _ (by norm_num)
    rw [hcancel]
    apply constrain_eq_left _ (by norm_num)
    linarith

/-- Witness for C3: centre stick with sensitivities 55 (float) and 0
(integer); full deflection with sensitivities 55, 100, 101 (float) and 80
(integer); zero float sensitivity at centre stick. -/
theorem C3_witness :
    luxHorizonStrength cexProfile3a cexEnv3 = 1 ∧
    mwHorizonStrength zeroProfile cexEnv3 = 100 ∧
    luxHorizonStrength zeroProfile cexEnv3 = 0 ∧
    luxHorizonStrength cexProfile3b cexEnv3b = 0 ∧
    luxHorizonStrength cexProfile3c cexEnv3b = 1 ∧
    mwHorizonStrength cexProfile3d cexEnv3b = 0 :=
  ⟨((C3_theorem cexProfile3a cexEnv3 rfl).1 rfl rfl).1 (by decide),
   ((C3_theorem zeroProfile cexEnv3 rfl).1 rfl rfl).2,
   (C3_theorem zeroProfile cexEnv3 rfl).2.1 rfl,
   ((C3_theorem cexProfile3b cexEnv3b rfl).2.2 rfl rfl).1 (by decide) (by decide),
   ((C3_theorem cexProfile3c cexEnv3b rfl).2.2 rfl rfl).2.1 (by decide),
   ((C3_theorem cexProfile3d cexEnv3b rfl).2.2 rfl rfl).2.2 (by decide)⟩

/-- Claim C4 counterexample: the integer variant does not divide the
3-sample moving sum by 3 — at a concrete input the D term the code stores
(99) differs from the spec's divide-by-3 reading (33). -/
theorem C4_counterexample :
    (mwAxisStep cexProfile4 cexEnv4 256 (mwHorizonStrength cexProfile4 cexEnv4) YAW
        initState).axisPID_D YAW ≠
      mwDTermClaimed cexProfile4 cexEnv4 (mwHorizonStrength cexProfile4 cexEnv4) YAW initState := by
  decide

/-- Claim C4 (amended): in the integer variant the smoothed derivative
consumed by the D term is the 3-sample moving sum itself — current
time-corrected delta plus the two persisted prior deltas — multiplied by
the axis D gain and weight factor with no division by 3 (stated with the
D-term low-pass disabled). -/
theorem C4_theorem (p : PidProfile) (e : Env) (G : Nat) (h : Int) (b : Axis) (s : PidState)
    (hcut : p.dterm_cut_hz = 0) :
    (mwAxisStep p e G h b s).axisPID_D b =
      sar (Int.tdiv ((s.delta1MW b + s.delta2MW b +
          sar ((mwRateError p e h b - s.lastErrorMW b) * (mwTimeCorr e : Int)) 6) *
        (p.D8 b : Int) * (e.PIDweight b : Int)) 100) 8 := by
  simp [mwAxisStep, hcut]

/-- Witness for C4 at the concrete D-term counterexample input. -/
theorem C4_witness :
    (mwAxisStep cexProfile4 cexEnv4 256 100 YAW initState).axisPID_D YAW =
      sar (Int.tdiv ((initState.delta1MW YAW + initState.delta2MW YAW +
          sar ((mwRateError cexProfile4 cexEnv4 100 YAW - initState.lastErrorMW YAW) *
            (mwTimeCorr cexEnv4 : Int)) 6) *
        (cexProfile4.D8 YAW : Int) * (cexEnv4.PIDweight YAW : Int)) 100) 8 :=
  C4_theorem cexProfile4 cexEnv4 256 100 YAW initState rfl

/-- Claim C5 counterexample: the float variant's `[-300, 300]` clamp wraps
the gain-scaled product, not the averaged delta sum — at a concrete input
the stored D term (300) differs from the clamp-before-gain reading (600). -/
theorem C5_counterexample :
    (luxAxisStep cexProfile5 cexEnv5 (luxHorizonStrength cexProfile5 cexEnv5) YAW
        initState).axisPID_D YAW ≠
      ctrunc (luxDTermClaimed cexProfile5 cexEnv5 (luxHorizonStrength cexProfile5 cexEnv5) YAW
        initState) := by
  have hL : (luxAxisStep cexProfile5 cexEnv5 (luxHorizonStrength cexProfile5 cexEnv5) YAW
      initState).axisPID_D YAW = 300 := by
    norm_num [luxAxisStep, luxRateError, luxAngleRate, luxHorizonStrength, luxDtermDivisor,
      cexProfile5, cexEnv5, zeroProfile, zeroEnv, initState, constrainf, ctrunc, filterApplyPt1,
      Function.update, YAW]
  have hR : ctrunc (luxDTermClaimed cexProfile5 cexEnv5 (luxHorizonStrength cexProfile5 cexEnv5)
      YAW initState) = 600 := by
    norm_num [luxDTermClaimed, luxRateError, luxAngleRate, luxHorizonStrength, luxDtermDivisor,
      cexProfile5, cexEnv5, zeroProfile, zeroEnv, initState, constrainf, ctrunc, YAW]
  rw [hL, hR]
  decide

/-- Claim C5 (amended): the float variant clamps the D term to the fixed
symmetric range `[-300, 300]` after the axis D gain and weight-factor
scaling — the clamp acts on the gain-scaled product of the averaged delta
sum, and the stored per-axis D value therefore always lies in that range. -/
theorem C5_theorem :
    (∀ (p : PidProfile) (e : Env) (q : ℚ) (b : Axis) (s : PidState), p.dterm_cut_hz = 0 →
      (luxAxisStep p e q b s).axisPID_D b =
        ctrunc (constrainf ((s.delta1Lux b + s.delta2Lux b +
            (luxRateError p e q b - s.lastErrorLux b) * (1 / luxDtermDivisor e)) / 3 *
          p.D_f b * (e.PIDweight b : ℚ) / 100) (-300) 300)) ∧
    (∀ (p : PidProfile) (e : Env) (q : ℚ) (b : Axis) (s : PidState),
      -300 ≤ (luxAxisStep p e q b s).axisPID_D b ∧ (luxAxisStep p e q b s).axisPID_D b ≤ 300) := by
  constructor
  · intro p e q b s hcut
    simp [luxAxisStep, hcut]
  · intro p e q b s
    unfold luxAxisStep
    simp only [Function.update_same]
    have h := @constrainf_mem
      ((if p.dterm_cut_hz ≠ 0 then
          filterApplyPt1 (s.delta1Lux b + s.delta2Lux b +
            (luxRateError p e q b - s.lastErrorLux b) * (1 / luxDtermDivisor e))
            (s.DTermState b) e.kD
        else s.delta1Lux b + s.delta2Lux b +
            (luxRateError p e q b - s.lastErrorLux b) * (1 / luxDtermDivisor e)) / 3 *
        p.D_f b * (e.PIDweight b : ℚ) / 100)
      (-300) 300 (by norm_num)
    exact ctrunc_mem (by exact_mod_cast h.1) (by exact_mod_cast h.2)

/-- Witness for C5 at the concrete clamp counterexample input. -/
theorem C5_witness :
    (luxAxisStep cexProfile5 cexEnv5 1 YAW initState).axisPID_D YAW =
      ctrunc (constrainf ((initState.delta1Lux YAW + initState.delta2Lux YAW +
          (luxRateError cexProfile5 cexEnv5 1 YAW - initState.lastErrorLux YAW) *
            (1 / luxDtermDivisor cexEnv5)) / 3 *
        cexProfile5.D_f YAW * (cexEnv5.PIDweight YAW : ℚ) / 100) (-300) 300) :=
  C5_theorem.1 cexProfile5 cexEnv5 1 YAW initState rfl

end Cleanflight
